import Mathlib

/-
  Verification development for `src/functions/notify_teams.py`
  (terraform-aws-notify-teams).

  The Python module is shallowly embedded: decoded JSON values are the
  inductive `Json`; Python exceptions are the `Except PyError` monad;
  `json.loads` is an abstract, deterministic decoder parameter
  `decode : String → Option Json` (`none` models `json.JSONDecodeError`).
  String operations of the source (`split`, `lower`, `in`, `json.dumps`)
  are implemented by structurally recursive functions so that every
  concrete computation reduces in the kernel.
-/

namespace NotifyTeams

/-- Decoded Python values as produced by `json.loads`.
Numbers are modelled as integers only (no float in any message the
claims exercise). Object fields are an association list in insertion
order, assumed duplicate-free, matching Python dict semantics. -/
inductive Json where
  | null
  | bool (b : Bool)
  | num (n : Int)
  | str (s : String)
  | arr (elems : List Json)
  | obj (fields : List (String × Json))

/-- Python exceptions that the translated code can raise.
`formatError` is the name used by the accompanying design document for
the audit-formatting failure; the translated code itself never raises
it (it raises `indexError` instead), and the constructor exists solely
so that statements about the documented behaviour can be expressed. -/
inductive PyError where
  | jsonDecodeError
  | keyError (key : String)
  | typeError
  | attributeError
  | indexError
  | formatError
deriving DecidableEq

/-- Monadic bind for `Except PyError`, written as an explicit match so
that all compositions reduce definitionally. -/
def exBind {α β : Type} (x : Except PyError α) (f : α → Except PyError β) :
    Except PyError β :=
  match x with
  | .error e => .error e
  | .ok a => f a

/-- Is `needle` a prefix of the character list? -/
def listIsPrefixOf : List Char → List Char → Bool
  | [], _ => true
  | _ :: _, [] => false
  | a :: as, b :: bs => a == b && listIsPrefixOf as bs

/-- Does the character list contain `needle` as a contiguous sublist? -/
def listContainsSub (needle : List Char) : List Char → Bool
  | [] => listIsPrefixOf needle []
  | x :: rest => listIsPrefixOf needle (x :: rest) || listContainsSub needle rest

/-- Python substring test `needle in hay` for strings. -/
def strIn (needle hay : String) : Bool :=
  listContainsSub needle.data hay.data

/-- Helper for `pySplit`: walks the characters, accumulating the current
segment (in reverse). -/
def pySplitAux (c : Char) : List Char → List Char → List String
  | [], acc => [String.mk acc.reverse]
  | x :: xs, acc =>
    if x == c then String.mk acc.reverse :: pySplitAux c xs []
    else pySplitAux c xs (x :: acc)

/-- Python `s.split(c)` for a single-character separator: keeps empty
segments, and the split of the empty string is `[""]`. -/
def pySplit (c : Char) (s : String) : List String :=
  pySplitAux c s.data []

/-- ASCII lowering of one character, as Python `str.lower` acts on the
ASCII range (no message field exercised by the claims leaves ASCII). -/
def pyCharLower (c : Char) : Char :=
  if 'A' ≤ c && c ≤ 'Z' then Char.ofNat (c.toNat + 32) else c

/-- Python `s.lower()` restricted to ASCII behaviour. -/
def pyLower (s : String) : String :=
  String.mk (s.data.map pyCharLower)

/-- One lowercase hexadecimal digit. -/
def hexDigit (n : Nat) : Char :=
  if n < 10 then Char.ofNat (48 + n) else Char.ofNat (87 + n)

/-- Two lowercase hexadecimal digits (for Python repr `\xNN` escapes). -/
def hex2 (n : Nat) : String :=
  String.mk [hexDigit (n / 16 % 16), hexDigit (n % 16)]

/-- Four lowercase hexadecimal digits (for JSON `\uNNNN` escapes). -/
def hex4 (n : Nat) : String :=
  String.mk [hexDigit (n / 4096 % 16), hexDigit (n / 256 % 16),
             hexDigit (n / 16 % 16), hexDigit (n % 16)]

/-- Escaping of one character inside a JSON string literal, following
Python `json.dumps` with its default `ensure_ascii=True`: the two
mandatory escapes, the short escapes for common control characters,
`\uNNNN` for the remaining control and all non-ASCII characters
(surrogate pairs beyond the BMP), everything else literal. -/
def jsonEscapeChar (c : Char) : String :=
  if c == '"' then "\\\""
  else if c == '\\' then "\\\\"
  else if c == '\n' then "\\n"
  else if c == '\r' then "\\r"
  else if c == '\t' then "\\t"
  else if c.toNat == 8 then "\\b"
  else if c.toNat == 12 then "\\f"
  else if c.toNat < 32 then "\\u" ++ hex4 c.toNat
  else if c.toNat < 127 then String.mk [c]
  else if c.toNat < 65536 then "\\u" ++ hex4 c.toNat
  else "\\u" ++ hex4 (55296 + (c.toNat - 65536) / 1024)
       ++ "\\u" ++ hex4 (56320 + (c.toNat - 65536) % 1024)

/-- JSON string-literal escaping of a whole string. -/
def jsonEscape (s : String) : String :=
  String.join (s.data.map jsonEscapeChar)

/-- Indentation used by `json.dumps(..., indent=2)`. -/
def pad (lvl : Nat) : String :=
  String.mk (List.replicate (2 * lvl) ' ')

mutual

/-- Rendering of one value by `json.dumps(..., indent=2)` at nesting
level `lvl` (default separators: items end with a comma, keys are
followed by a colon and one space). -/
def dumpsVal : Nat → Json → String
  | _, .null => "null"
  | _, .bool true => "true"
  | _, .bool false => "false"
  | _, .num n => toString n
  | _, .str s => "\"" ++ jsonEscape s ++ "\""
  | _, .arr [] => "[]"
  | lvl, .arr (x :: xs) =>
    "[\n" ++ pad (lvl + 1) ++ dumpsVal (lvl + 1) x ++ dumpsArr (lvl + 1) xs
      ++ "\n" ++ pad lvl ++ "]"
  | _, .obj [] => "\x7b\x7d"
  | lvl, .obj ((k, v) :: fs) =>
    "\x7b\n" ++ pad (lvl + 1) ++ "\"" ++ jsonEscape k ++ "\": "
      ++ dumpsVal (lvl + 1) v ++ dumpsObj (lvl + 1) fs
      ++ "\n" ++ pad lvl ++ "\x7d"

/-- Remaining array items at one nesting level. -/
def dumpsArr : Nat → List Json → String
  | _, [] => ""
  | lvl, x :: xs => ",\n" ++ pad lvl ++ dumpsVal lvl x ++ dumpsArr lvl xs

/-- Remaining object items at one nesting level. -/
def dumpsObj : Nat → List (String × Json) → String
  | _, [] => ""
  | lvl, (k, v) :: fs =>
    ",\n" ++ pad lvl ++ "\"" ++ jsonEscape k ++ "\": " ++ dumpsVal lvl v
      ++ dumpsObj lvl fs

end

/-- Python `json.dumps(value, indent=2)`. -/
def pyJsonDumps2 (j : Json) : String :=
  dumpsVal 0 j

/-- Escaping of one character inside a Python string repr with quote
character `q` (escapes for the printable range are exact; rarely
printable non-ASCII categories are approximated as literal, and no
value exercised by the claims leaves printable ASCII). -/
def pyReprCharEsc (q : Char) (c : Char) : String :=
  if c == '\\' then "\\\\"
  else if c == q then "\\" ++ String.mk [q]
  else if c == '\n' then "\\n"
  else if c == '\r' then "\\r"
  else if c == '\t' then "\\t"
  else if c.toNat < 32 || c.toNat == 127 then "\\x" ++ hex2 c.toNat
  else String.mk [c]

/-- Python `repr` of a string: single quotes, switching to double quotes
when the string contains a single quote but no double quote. -/
def pyStrRepr (s : String) : String :=
  let q : Char :=
    if s.data.contains (Char.ofNat 39) && !(s.data.contains '"') then '"'
    else Char.ofNat 39
  String.mk [q] ++ String.join (s.data.map (pyReprCharEsc q)) ++ String.mk [q]

mutual

/-- Python `repr` of a decoded value (`None`, `True`, `False`, numbers,
strings, lists, dicts). -/
def pyRepr : Json → String
  | .null => "None"
  | .bool true => "True"
  | .bool false => "False"
  | .num n => toString n
  | .str s => pyStrRepr s
  | .arr [] => "[]"
  | .arr (x :: xs) => "[" ++ pyRepr x ++ pyReprArr xs ++ "]"
  | .obj [] => "\x7b\x7d"
  | .obj ((k, v) :: fs) =>
    "\x7b" ++ pyStrRepr k ++ ": " ++ pyRepr v ++ pyReprObj fs ++ "\x7d"

/-- Remaining list elements of a repr. -/
def pyReprArr : List Json → String
  | [] => ""
  | x :: xs => ", " ++ pyRepr x ++ pyReprArr xs

/-- Remaining dict items of a repr. -/
def pyReprObj : List (String × Json) → String
  | [] => ""
  | (k, v) :: fs => ", " ++ pyStrRepr k ++ ": " ++ pyRepr v ++ pyReprObj fs

end

/-- Python `str()` as used by f-string interpolation: strings render
verbatim, everything else by its repr. -/
def pyStr : Json → String
  | .str s => s
  | .null => pyRepr .null
  | .bool b => pyRepr (.bool b)
  | .num n => pyRepr (.num n)
  | .arr xs => pyRepr (.arr xs)
  | .obj fs => pyRepr (.obj fs)

/-- Python membership `needle in j` for a string needle: key membership
for dicts, element equality for lists, substring test for strings, and
`TypeError` for the non-iterable values. -/
def pyIn (needle : String) (j : Json) : Except PyError Bool :=
  match j with
  | .obj fs => .ok (fs.any fun p => p.1 == needle)
  | .arr xs => .ok (xs.any fun x => match x with | .str s => s == needle | _ => false)
  | .str s => .ok (strIn needle s)
  | _ => .error .typeError

/-- Python `j.get(k, dflt)`: only dicts have `.get` (`AttributeError`
otherwise); an absent key yields the default. -/
def pyGetD (j : Json) (k : String) (dflt : Json) : Except PyError Json :=
  match j with
  | .obj fs => .ok ((List.lookup k fs).getD dflt)
  | _ => .error .attributeError

/-- Python subscript `j[k]` with a string key: dicts raise `KeyError`
for an absent key; every other value raises `TypeError`. -/
def pySubscript (j : Json) (k : String) : Except PyError Json :=
  match j with
  | .obj fs =>
    match List.lookup k fs with
    | some v => .ok v
    | none => .error (.keyError k)
  | _ => .error .typeError

/-- Python equality `j == s` between a decoded value and a string
literal: true exactly for the equal string. -/
def pyEqStr (j : Json) (s : String) : Bool :=
  match j with
  | .str t => t == s
  | _ => false

/-- Python attribute access needed for `new_state.lower()` and
`reason.split`: only strings carry these methods. -/
def pyAsStr (j : Json) : Except PyError String :=
  match j with
  | .str s => .ok s
  | _ => .error .attributeError

/-- CardData: the `colour`/`title`/`text` dictionary each branch builds. -/
structure CardData where
  colour : String
  title : String
  text : String
deriving DecidableEq

/-- One SNS record as the handler reads it: the mandatory `Message`
string and the optional metadata fields (source lines 75-76 and
114-127). The field `Type` of the record is written `Type'` because
`Type` is reserved in Lean. -/
structure SnsRecord where
  Message : String
  Subject : Option String := none
  Type' : Option String := none
  MessageId : Option String := none
  TopicArn : Option String := none
  Timestamp : Option String := none

/-- The invocation event: `event['Records']`, a list of records, each
already unwrapped to its `Sns` payload. -/
structure LambdaEvent where
  Records : List SnsRecord

/-- Present metadata becomes a JSON string, absent metadata the Python
`None`, exactly as `sns_record.get(...)` hands values to `json.dumps`. -/
def jsonOfOpt : Option String → Json
  | some s => .str s
  | none => .null

/-- Branch selected by the `if / elif / else` of `lambda_handler`. -/
inductive Branch where
  | alarm
  | audit
  | generic
deriving DecidableEq

/-- Translation of `is_cloudwatch_alarm` (source lines 14-19): decode
the message, catching only `json.JSONDecodeError` (which yields
`False`); then the membership test, whose `TypeError` on non-iterable
values is not caught. -/
def is_cloudwatch_alarm (decode : String → Option Json) (message : String) :
    Except PyError Bool :=
  match decode message with
  | none => .ok false
  | some message_json => pyIn "AlarmName" message_json

/-- The `if / elif / else` conditions of `lambda_handler` (source lines
81, 110, 113), in source order with Python short-circuit evaluation:
`'AlarmName' in message_json and is_cloudwatch_alarm(message)`, then
`message_json.get('detail-type') == 'AWS Service Event via CloudTrail'`,
else the fallback. -/
def classify (decode : String → Option Json) (message : String) (payload : Json) :
    Except PyError Branch :=
  exBind (pyIn "AlarmName" payload) fun c1 =>
  exBind (if c1 then is_cloudwatch_alarm decode message else .ok false) fun cond =>
  if cond then .ok .alarm
  else
    exBind (pyGetD payload "detail-type" .null) fun dt =>
    if pyEqStr dt "AWS Service Event via CloudTrail" then .ok .audit
    else .ok .generic

/-- The computed alarm card `base_data` (source lines 89-93). The
new-state string is passed separately because the source has already
required it to be a string (`new_state.lower()`); the f-string renders
it verbatim. -/
def base_data (alarm_name old_state reason : Json) (new_state : String) : CardData :=
  { colour := if pyLower new_state != "alarm" then "Good" else "Attention"
    title := (if pyLower new_state != "alarm" then "Resolved" else "Red Alert")
      ++ " - " ++ pyStr alarm_name
    text := "**" ++ pyStr alarm_name ++ "** changed from **" ++ pyStr old_state
      ++ "** to **" ++ new_state ++ "**\n\nReason: " ++ pyStr reason }

/-- The literal `overrides` dict lookup
`overrides.get((new_state, alarm_name), ...)` (source lines 95-108):
tuple keys compare by exact, case-sensitive equality of the new-state
string and Python equality of the alarm-name value. -/
def overridesLookup (new_state : String) (alarm_name : Json) : Option CardData :=
  if new_state == "ALARM" && pyEqStr alarm_name "my-alarm-name" then
    some { colour := "Attention"
           title := "Red Alert - A bad thing happened."
           text := "These are the specific details of the bad thing." }
  else if new_state == "OK" && pyEqStr alarm_name "my-alarm-name" then
    some { colour := "Good"
           title := "The bad thing stopped happening"
           text := "These are the specific details of how we know the bad thing stopped happening" }
  else none

/-- The alarm branch body (source lines 82-108): the four subscripts
(each a possible `KeyError`), the implicit requirement that the new
state be a string (`new_state.lower()` raises `AttributeError`
otherwise), the computed `base_data`, and the override lookup. -/
def alarm_branch (message_json : Json) : Except PyError CardData :=
  exBind (pySubscript message_json "AlarmName") fun alarm_name =>
  exBind (pySubscript message_json "OldStateValue") fun old_state =>
  exBind (pySubscript message_json "NewStateValue") fun new_state =>
  exBind (pySubscript message_json "NewStateReason") fun reason =>
  exBind (pyAsStr new_state) fun ns =>
  .ok ((overridesLookup ns alarm_name).getD (base_data alarm_name old_state reason ns))

/-- Title computation of `parse_cloudtrail_event` (source line 28):
`f"Alert - {reason.split(':')[6].split(' ')[0]} - Issue: {alarm_name}"
if ':' in reason else f"Alert - Issue: {alarm_name}"`. The subscript
`[6]` raises `IndexError` when fewer than seven segments exist;
`.split` is only an attribute of strings; `[0]` of a split result never
fails because a split is never empty. -/
def audit_title (alarm_name reason : Json) (hasColon : Bool) :
    Except PyError String :=
  if hasColon then
    match reason with
    | .str s =>
      match (pySplit ':' s)[6]? with
      | some seg =>
        .ok ("Alert - " ++ (pySplit ' ' seg).headD "" ++ " - Issue: " ++ pyStr alarm_name)
      | none => .error .indexError
    | _ => .error .attributeError
  else .ok ("Alert - Issue: " ++ pyStr alarm_name)

/-- The card built by `parse_cloudtrail_event` from its parts (source
lines 30-40). -/
def audit_card (alarm_name reason typ mid ts : Json) (title : String) : CardData :=
  { colour := "Attention"
    title := title
    text := pyJsonDumps2 (.obj
      [("Subject", alarm_name), ("Type", typ), ("MessageId", mid),
       ("Message", reason), ("Timestamp", ts)]) }

/-- Translation of `parse_cloudtrail_event` (source lines 22-40): the
`.get` defaults for `eventName` and `errorMessage`, the colon test
(Python `in`, which itself can raise on non-iterable values), the title
derivation, and the pretty-printed card text with the remaining
defaulted fields. -/
def parse_cloudtrail_event (detail : Json) : Except PyError CardData :=
  exBind (pyGetD detail "eventName" (.str "UnknownEvent")) fun alarm_name =>
  exBind (pyGetD detail "errorMessage" (.str "No error message provided")) fun reason =>
  exBind (pyIn ":" reason) fun hasColon =>
  exBind (audit_title alarm_name reason hasColon) fun title =>
  exBind (pyGetD detail "eventType" (.str "Unknown")) fun typ =>
  exBind (pyGetD detail "eventID" (.str "Unknown")) fun mid =>
  exBind (pyGetD detail "eventTime" (.str "Unknown")) fun ts =>
  .ok (audit_card alarm_name reason typ mid ts title)

/-- The generic fallback card (source lines 114-127): colour `Warning`,
the defaulted subject in the title, and the six metadata fields dumped
with 2-space indentation, absent ones as `null`. -/
def generic_data (sns_record : SnsRecord) : CardData :=
  { colour := "Warning"
    title := "Alert - " ++ sns_record.Subject.getD "No Subject"
    text := pyJsonDumps2 (.obj
      [("Subject", jsonOfOpt sns_record.Subject),
       ("Type", jsonOfOpt sns_record.Type'),
       ("MessageId", jsonOfOpt sns_record.MessageId),
       ("TopicArn", jsonOfOpt sns_record.TopicArn),
       ("Message", .str sns_record.Message),
       ("Timestamp", jsonOfOpt sns_record.Timestamp)]) }

/-- Translation of `build_adaptive_card` (source lines 43-70): the
fixed adaptive-card template with the colour, title and text
substituted (the dict always carries a colour, so the
`data.get("colour", "Default")` default never fires). -/
def build_adaptive_card (data : CardData) : Json :=
  .obj
    [("type", .str "message"),
     ("attachments", .arr
       [.obj
         [("contentType", .str "application/vnd.microsoft.card.adaptive"),
          ("content", .obj
            [("$schema", .str "http://adaptivecards.io/schemas/adaptive-card.json"),
             ("type", .str "AdaptiveCard"),
             ("version", .str "1.5"),
             ("body", .arr
               [.obj
                 [("type", .str "TextBlock"),
                  ("text", .str data.title),
                  ("weight", .str "Bolder"),
                  ("size", .str "Medium"),
                  ("color", .str data.colour)],
                .obj
                 [("type", .str "TextBlock"),
                  ("text", .str data.text),
                  ("wrap", .bool true)]])])]])]

/-- Outcome of the single `urlopen` POST to the webhook. -/
inductive DeliveryOutcome where
  | success
  | httpError (code : Nat) (reason : String)
  | urlError (reason : String)

/-- The log line written by the delivery `try/except` (source lines
131-143): success is logged, `HTTPError` and `URLError` are caught,
logged and swallowed. -/
def deliveryLogLine : DeliveryOutcome → String
  | .success => "Message posted successfully."
  | .httpError code reason => "Request failed: " ++ toString code ++ " " ++ reason
  | .urlError reason => "Server connection failed: " ++ reason

/-- Result of a completed invocation: the card payload that was POSTed,
the delivery log line, and the number of POST attempts made. -/
structure HandlerResult where
  card : Json
  deliveryLog : String
  posts : Nat

/-- The processing phase of `lambda_handler` (source lines 73-129),
everything before the delivery `try`: unwrap the first record
(`IndexError` on an empty list), the unguarded `json.loads(message)`,
the branch dispatch, and the card construction. -/
def process (decode : String → Option Json) (event : LambdaEvent) :
    Except PyError Json :=
  exBind (match event.Records.head? with
          | some r => .ok r
          | none => .error .indexError) fun sns_record =>
  exBind (match decode sns_record.Message with
          | some j => .ok j
          | none => .error .jsonDecodeError) fun message_json =>
  exBind (classify decode sns_record.Message message_json) fun b =>
  exBind (match b with
          | .alarm => alarm_branch message_json
          | .audit => exBind (pySubscript message_json "detail") parse_cloudtrail_event
          | .generic => .ok (generic_data sns_record)) fun data =>
  .ok (build_adaptive_card data)

/-- Translation of `lambda_handler` (source lines 73-143): processing,
then the single best-effort POST whose failure is caught and logged. -/
def lambda_handler (decode : String → Option Json) (event : LambdaEvent)
    (net : DeliveryOutcome) : Except PyError HandlerResult :=
  (process decode event).map fun card =>
    { card := card, deliveryLog := deliveryLogLine net, posts := 1 }

/-- The decoded alarm payload with the four required fields, all
strings. -/
def mkAlarmPayload (a o n r : String) : Json :=
  .obj [("AlarmName", .str a), ("OldStateValue", .str o),
        ("NewStateValue", .str n), ("NewStateReason", .str r)]

/-- A CloudTrail `detail` object with an event name and an error
message. -/
def mkDetail (name reason : String) : Json :=
  .obj [("eventName", .str name), ("errorMessage", .str reason)]

end NotifyTeams

namespace NotifyTeams

/-- An index strictly below the length hits an element. -/
theorem list_getElem?_some_of_lt {α : Type} :
    ∀ (l : List α) (n : Nat), n < l.length → ∃ x, l[n]? = some x
  | [], n, h => absurd h (by simp)
  | x :: _, 0, _ => ⟨x, by simp⟩
  | _ :: xs, n + 1, h => by
    rw [List.getElem?_cons_succ]
    exact list_getElem?_some_of_lt xs n (by simpa using h)

/-- An index at or beyond the length misses. -/
theorem list_getElem?_none_of_le {α : Type} :
    ∀ (l : List α) (n : Nat), l.length ≤ n → l[n]? = none
  | [], 0, _ => by simp
  | [], _ + 1, _ => by simp
  | _ :: _, 0, h => absurd h (by simp)
  | _ :: xs, n + 1, h => by
    rw [List.getElem?_cons_succ]
    exact list_getElem?_none_of_le xs n (by simpa using h)

/-- Classification of a decoded object payload: the `AlarmName` key
selects the alarm branch, else the exact `detail-type` marker selects
the audit branch, else the generic branch. -/
theorem classify_obj (decode : String → Option Json) (message : String)
    (fields : List (String × Json)) (h : decode message = some (.obj fields)) :
    classify decode message (.obj fields) =
      .ok (if fields.any (fun p => p.1 == "AlarmName") then Branch.alarm
           else if pyEqStr ((List.lookup "detail-type" fields).getD .null)
                    "AWS Service Event via CloudTrail" then Branch.audit
           else Branch.generic) := by
  cases hA : fields.any (fun p => p.1 == "AlarmName") with
  | true =>
    have hic : is_cloudwatch_alarm decode message = .ok true := by
      unfold is_cloudwatch_alarm
      rw [h]
      simp [pyIn, hA]
    simp [classify, pyIn, hA, hic, exBind]
  | false =>
    cases hdt : pyEqStr ((List.lookup "detail-type" fields).getD .null)
        "AWS Service Event via CloudTrail" <;>
      simp [classify, pyIn, hA, exBind, pyGetD, hdt]

end NotifyTeams

namespace NotifyTeams

/-- C1: the specification says a record whose `Message` string is not
valid JSON is routed to the generic branch without raising. The code
disagrees: the unguarded `json.loads(message)` on source line 76 runs
before `is_cloudwatch_alarm` can catch anything, so a non-JSON message
makes the decode error escape `lambda_handler`. This theorem evaluates
the translated handler at such a failing input. -/
theorem decode_failure_raises_out_of_handler :
    lambda_handler (fun _ => none) { Records := [{ Message := "not json" }] } .success
      = .error .jsonDecodeError := rfl

/-- C2 (amended): for every message that decodes to a JSON object, the
classification follows the stated first-match-wins order: the key
`AlarmName` selects the alarm branch, otherwise the `detail-type` field
equal to the exact marker string selects the audit branch, otherwise
the generic branch. -/
theorem classify_object_first_match (decode : String → Option Json)
    (message : String) (fields : List (String × Json))
    (h : decode message = some (.obj fields)) :
    classify decode message (.obj fields) =
      .ok (if fields.any (fun p => p.1 == "AlarmName") then Branch.alarm
           else if pyEqStr ((List.lookup "detail-type" fields).getD .null)
                    "AWS Service Event via CloudTrail" then Branch.audit
           else Branch.generic) :=
  classify_obj decode message fields h

/-- Witness for C2: a decoded object containing `AlarmName` is
classified as an alarm. -/
theorem classify_object_first_match_witness :
    classify (fun _ => some (.obj [("AlarmName", .str "x")])) "m"
        (.obj [("AlarmName", .str "x")]) = .ok .alarm :=
  (classify_object_first_match (fun _ => some (.obj [("AlarmName", .str "x")]))
    "m" [("AlarmName", .str "x")] rfl).trans rfl

/-- Counterexample for C2 as stated: a payload that decodes successfully
to JSON `null` is not routed to the generic branch; the membership test
`'AlarmName' in message_json` raises `TypeError` out of the handler, so
no generic card is produced. -/
theorem classify_nonobject_payload_raises :
    lambda_handler (fun _ => some .null) { Records := [{ Message := "null" }] } .success
      = .error .typeError := rfl

/-- C3: in the alarm branch, an override-table hit replaces the computed
card wholesale with the literal entry, and a miss leaves the computed
`base_data` unchanged. The lookup key is the exact, case-sensitive
new-state string `n`. -/
theorem alarm_override_precedence (a o n r : String) :
    (∀ d : CardData, overridesLookup n (.str a) = some d →
      alarm_branch (mkAlarmPayload a o n r) = .ok d) ∧
    (overridesLookup n (.str a) = none →
      alarm_branch (mkAlarmPayload a o n r)
        = .ok (base_data (.str a) (.str o) (.str r) n)) := by
  have key : alarm_branch (mkAlarmPayload a o n r)
      = .ok ((overridesLookup n (.str a)).getD
              (base_data (.str a) (.str o) (.str r) n)) := rfl
  refine ⟨fun d hd => ?_, fun hn => ?_⟩
  · rw [key, hd]
    rfl
  · rw [key, hn]
    rfl

/-- Witness for C3: the literal `('ALARM', 'my-alarm-name')` entry
replaces the computed card (whose colour would also have been
`Attention`, but title and text differ). -/
theorem alarm_override_precedence_witness :
    alarm_branch (mkAlarmPayload "my-alarm-name" "OK" "ALARM" "reason text") =
      .ok { colour := "Attention", title := "Red Alert - A bad thing happened.",
            text := "These are the specific details of the bad thing." } :=
  (alarm_override_precedence "my-alarm-name" "OK" "ALARM" "reason text").1 _ rfl

/-- C4: the final alarm-branch card (override lookup included) has
colour `Attention` exactly when the lowercased new state is `alarm`,
and `Good` otherwise; the two override entries agree with this rule. -/
theorem alarm_colour_invariant (a o n r : String) (d : CardData)
    (h : alarm_branch (mkAlarmPayload a o n r) = .ok d) :
    d.colour = if pyLower n == "alarm" then "Attention" else "Good" := by
  have key : alarm_branch (mkAlarmPayload a o n r)
      = .ok ((overridesLookup n (.str a)).getD
              (base_data (.str a) (.str o) (.str r) n)) := rfl
  rw [key] at h
  have hd : d = (overridesLookup n (.str a)).getD
      (base_data (.str a) (.str o) (.str r) n) := (Except.ok.inj h).symm
  subst hd
  unfold overridesLookup
  by_cases h1 : n = "ALARM" ∧ a = "my-alarm-name"
  · obtain ⟨hn, ha⟩ := h1
    subst hn; subst ha
    rfl
  · by_cases h2 : n = "OK" ∧ a = "my-alarm-name"
    · obtain ⟨hn, ha⟩ := h2
      subst hn; subst ha
      rfl
    · have e1 : ((n == "ALARM") && pyEqStr (Json.str a) "my-alarm-name") = false := by
        by_cases hn : n = "ALARM"
        · subst hn
          have ha : a ≠ "my-alarm-name" := fun hh => h1 ⟨rfl, hh⟩
          simp [pyEqStr, ha]
        · simp [hn]
      have e2 : ((n == "OK") && pyEqStr (Json.str a) "my-alarm-name") = false := by
        by_cases hn : n = "OK"
        · subst hn
          have ha : a ≠ "my-alarm-name" := fun hh => h2 ⟨rfl, hh⟩
          simp [pyEqStr, ha]
        · simp [hn]
      rw [e1, e2]
      simp only [Bool.false_eq_true, if_false]
      unfold base_data
      cases hl : pyLower n == "alarm" with
      | true => simp [bne, hl]
      | false => simp [bne, hl]

/-- Witness for C4: with new state `ALARM` (and no override hit) the
computed colour is `Attention`, matching the lowercased test. -/
theorem alarm_colour_invariant_witness :
    ("Attention" : String) = if pyLower "ALARM" == "alarm" then "Attention" else "Good" :=
  alarm_colour_invariant "x" "OK" "ALARM" "r"
    { colour := "Attention", title := "Red Alert - x",
      text := "**x** changed from **OK** to **ALARM**\n\nReason: r" } rfl

end NotifyTeams

namespace NotifyTeams

/-- C5: the audit title. When the error message contains a colon and
splits into at least seven colon-delimited segments, the title is
`Alert - {faultCode} - Issue: {eventName}` with the fault code the
first space-delimited token of the seventh segment (the reading of the
claim's whitespace-delimited token that matches the source's
`split(' ')` and the claim's own example); with no colon the title is
`Alert - Issue: {eventName}`. -/
theorem audit_title_format (name reason : String) :
    (strIn ":" reason = true → 7 ≤ (pySplit ':' reason).length →
      (parse_cloudtrail_event (mkDetail name reason)).map CardData.title
        = .ok ("Alert - " ++ (pySplit ' ' ((pySplit ':' reason).getD 6 "")).headD ""
               ++ " - Issue: " ++ name)) ∧
    (strIn ":" reason = false →
      (parse_cloudtrail_event (mkDetail name reason)).map CardData.title
        = .ok ("Alert - Issue: " ++ name)) := by
  have key : parse_cloudtrail_event (mkDetail name reason)
      = exBind (audit_title (.str name) (.str reason) (strIn ":" reason)) (fun title =>
          .ok (audit_card (.str name) (.str reason) (.str "Unknown") (.str "Unknown")
                (.str "Unknown") title)) := rfl
  constructor
  · intro h0 h7
    obtain ⟨seg, hseg⟩ := list_getElem?_some_of_lt (pySplit ':' reason) 6 (by omega)
    have hgd : (pySplit ':' reason).getD 6 "" = seg := by
      simp [List.getD, hseg]
    have ht : audit_title (.str name) (.str reason) (strIn ":" reason)
        = .ok ("Alert - " ++ (pySplit ' ' seg).headD "" ++ " - Issue: " ++ name) := by
      rw [h0]
      simp [audit_title, hseg, pyStr]
    rw [key, ht, hgd]
    rfl
  · intro h0
    rw [key, h0]
    rfl

/-- Witness for C5: the two examples of the claim, a seven-segment
message with fault code `token` and a colon-free message. -/
theorem audit_title_format_witness :
    (parse_cloudtrail_event (mkDetail "E1" "a:b:c:d:e:f:token extra")).map CardData.title
      = .ok "Alert - token - Issue: E1" ∧
    (parse_cloudtrail_event (mkDetail "E2" "boom")).map CardData.title
      = .ok "Alert - Issue: E2" :=
  ⟨((audit_title_format "E1" "a:b:c:d:e:f:token extra").1 rfl (by decide)).trans rfl,
   ((audit_title_format "E2" "boom").2 rfl).trans rfl⟩

/-- C6 (amended): an error message that contains a colon but splits
into fewer than seven colon-delimited segments makes the audit
formatting fail by raising `IndexError` from the unguarded subscript
`reason.split(':')[6]` (source line 28): the split length is not
guarded and no corrupted text is produced, but the failure is the raw
out-of-range index, not a `FormatError`. -/
theorem audit_short_message_raises_indexerror (name reason : String)
    (h0 : strIn ":" reason = true) (h7 : (pySplit ':' reason).length < 7) :
    parse_cloudtrail_event (mkDetail name reason) = .error .indexError := by
  have hseg : (pySplit ':' reason)[6]? = none :=
    list_getElem?_none_of_le (pySplit ':' reason) 6 (by omega)
  have ht : audit_title (.str name) (.str reason) (strIn ":" reason)
      = .error .indexError := by
    rw [h0]
    simp [audit_title, hseg]
  have key : parse_cloudtrail_event (mkDetail name reason)
      = exBind (audit_title (.str name) (.str reason) (strIn ":" reason)) (fun title =>
          .ok (audit_card (.str name) (.str reason) (.str "Unknown") (.str "Unknown")
                (.str "Unknown") title)) := rfl
  rw [key, ht]
  rfl

/-- Witness for C6 (amended): a two-segment message raises IndexError. -/
theorem audit_short_message_raises_indexerror_witness :
    parse_cloudtrail_event (mkDetail "E3" "x:y") = .error .indexError :=
  audit_short_message_raises_indexerror "E3" "x:y" rfl (by decide)

/-- Counterexample for C6 as stated: at a concrete short message the
failure is `IndexError`, which is not the guarded `FormatError` the
claim describes. -/
theorem audit_short_message_counterexample :
    parse_cloudtrail_event (mkDetail "E" "a:b") = .error .indexError ∧
    PyError.indexError ≠ PyError.formatError :=
  ⟨rfl, by decide⟩

/-- C7: when an invocation reaches the delivery step (its processing
succeeds), a failing delivery - an HTTP error response or a connection
failure - is logged and swallowed: the handler still returns normally
with exactly the one POST attempt and the corresponding error log line,
and no exception propagates. -/
theorem delivery_failure_swallowed (decode : String → Option Json)
    (event : LambdaEvent) (code : Nat) (reason : String) {r : HandlerResult}
    (h : lambda_handler decode event .success = .ok r) :
    r.posts = 1 ∧
    lambda_handler decode event (.httpError code reason)
      = .ok { card := r.card,
              deliveryLog := "Request failed: " ++ toString code ++ " " ++ reason,
              posts := 1 } ∧
    lambda_handler decode event (.urlError reason)
      = .ok { card := r.card,
              deliveryLog := "Server connection failed: " ++ reason,
              posts := 1 } := by
  cases hp : process decode event with
  | error e =>
    unfold lambda_handler at h
    rw [hp] at h
    simp [Except.map] at h
  | ok card =>
    unfold lambda_handler at h ⊢
    rw [hp] at h ⊢
    have hr : ({ card := card, deliveryLog := deliveryLogLine .success, posts := 1 }
        : HandlerResult) = r := by
      simpa [Except.map] using h
    subst hr
    exact ⟨rfl, rfl, rfl⟩

/-- Witness for C7: a concrete record whose message decodes to an empty
object (generic branch) still yields a normal result with one POST when
the HTTP response is an error and when the connection fails. -/
theorem delivery_failure_swallowed_witness :
    (lambda_handler (fun _ => some (.obj [])) { Records := [{ Message := "m" }] }
        (.httpError 500 "boom")).map HandlerResult.posts = .ok 1 ∧
    (lambda_handler (fun _ => some (.obj [])) { Records := [{ Message := "m" }] }
        (.urlError "connection refused")).map HandlerResult.posts = .ok 1 := by
  have h1 := delivery_failure_swallowed (fun _ => some (.obj []))
    { Records := [{ Message := "m" }] } 500 "boom" rfl
  have h2 := delivery_failure_swallowed (fun _ => some (.obj []))
    { Records := [{ Message := "m" }] } 500 "connection refused" rfl
  exact ⟨by rw [h1.2.1]; rfl, by rw [h2.2.2]; rfl⟩

end NotifyTeams

namespace NotifyTeams

/-- C8: an envelope with zero records aborts the invocation before any
card is built or sent: `event['Records'][0]` on the empty list raises
the fatal unwrap error (the IndexError realising the design document's
MalformedEnvelope), for every decoder and every delivery outcome. -/
theorem empty_records_aborts (decode : String → Option Json) (net : DeliveryOutcome) :
    lambda_handler decode { Records := [] } net = .error .indexError := rfl

/-- C9: the generic branch card: colour `Warning`, title
`Alert - {subject}` with subject defaulting to `No Subject`, and text
the 2-space-indented pretty-printed JSON object with the six metadata
keys taken verbatim from the record, absent ones serialised as `null`
rather than omitted; the final conjunct evaluates a record that has
only a `Message`, exhibiting the exact rendered text. -/
theorem generic_branch_format (record : SnsRecord) :
    (generic_data record).colour = "Warning" ∧
    (generic_data record).title = "Alert - " ++ record.Subject.getD "No Subject" ∧
    (generic_data record).text = pyJsonDumps2 (.obj
      [("Subject", jsonOfOpt record.Subject),
       ("Type", jsonOfOpt record.Type'),
       ("MessageId", jsonOfOpt record.MessageId),
       ("TopicArn", jsonOfOpt record.TopicArn),
       ("Message", .str record.Message),
       ("Timestamp", jsonOfOpt record.Timestamp)]) ∧
    generic_data { Message := "hi" } =
      { colour := "Warning", title := "Alert - No Subject",
        text := "\x7b\n  \"Subject\": null,\n  \"Type\": null,\n  \"MessageId\": null,\n  \"TopicArn\": null,\n  \"Message\": \"hi\",\n  \"Timestamp\": null\n\x7d" } :=
  ⟨rfl, rfl, rfl, rfl⟩

/-- C10: a decoded object payload whose `detail-type` equals the audit
marker but which has no `detail` key makes the handler raise `KeyError`
at `message_json['detail']` (source line 112) before any card is built
or delivered; by contrast, the per-field placeholder defaults apply to
an existing (even empty) `detail` object, as the second conjunct shows. -/
theorem audit_missing_detail_raises (decode : String → Option Json)
    (net : DeliveryOutcome) (message : String) (fields : List (String × Json))
    (hdec : decode message = some (.obj fields))
    (hA : fields.any (fun p => p.1 == "AlarmName") = false)
    (hdt : pyEqStr ((List.lookup "detail-type" fields).getD .null)
            "AWS Service Event via CloudTrail" = true)
    (hd : List.lookup "detail" fields = none) :
    lambda_handler decode { Records := [{ Message := message }] } net
      = .error (.keyError "detail") ∧
    parse_cloudtrail_event (.obj [])
      = .ok { colour := "Attention", title := "Alert - Issue: UnknownEvent",
              text := "\x7b\n  \"Subject\": \"UnknownEvent\",\n  \"Type\": \"Unknown\",\n  \"MessageId\": \"Unknown\",\n  \"Message\": \"No error message provided\",\n  \"Timestamp\": \"Unknown\"\n\x7d" } := by
  constructor
  · have hcl : classify decode message (.obj fields) = .ok .audit := by
      rw [classify_obj decode message fields hdec, hA]
      simp [hdt]
    have key : lambda_handler decode { Records := [{ Message := message }] } net
        = (exBind (match decode message with
                   | some j => Except.ok j
                   | none => Except.error PyError.jsonDecodeError) (fun message_json =>
           exBind (classify decode message message_json) fun b =>
           exBind (match b with
                   | Branch.alarm => alarm_branch message_json
                   | Branch.audit =>
                     exBind (pySubscript message_json "detail") parse_cloudtrail_event
                   | Branch.generic =>
                     Except.ok (generic_data { Message := message })) fun data =>
           Except.ok (build_adaptive_card data))).map (fun card =>
             { card := card, deliveryLog := deliveryLogLine net, posts := 1 }) := rfl
    rw [key, hdec]
    show (exBind (classify decode message (.obj fields)) _).map _ = _
    rw [hcl]
    show (exBind (exBind (pySubscript (.obj fields) "detail") parse_cloudtrail_event)
            fun data => Except.ok (build_adaptive_card data)).map _ = _
    simp [pySubscript, hd, exBind, Except.map]
  · rfl

/-- Witness for C10: a concrete payload carrying only the marker and no
`detail` key makes the handler raise `KeyError('detail')`. -/
theorem audit_missing_detail_raises_witness :
    lambda_handler (fun _ => some (.obj [("detail-type", .str "AWS Service Event via CloudTrail")]))
        { Records := [{ Message := "m" }] } .success = .error (.keyError "detail") :=
  (audit_missing_detail_raises _ .success "m"
    [("detail-type", .str "AWS Service Event via CloudTrail")] rfl rfl rfl rfl).1

end NotifyTeams
